import Mathlib

/-!
Verification of the chess board/piece/move subsystem.

This file is a shallow embedding, in Lean 4, of the C++ chess engine:
the `ChessPiece` hierarchy (Pawn, Rook, Knight, Bishop, Queen, King),
the `ChessBoard` state (grid, turn flag, move history) and its
operations `move`, `undo`, and the pure core of `attemptRound`.
C++ `int` is modelled as `Int`; `ChessPiece*` grid slots are modelled
as `Option ChessPiece` (a captured piece is only unlinked from the
grid, never mutated while off-grid, so carrying piece values instead
of pointers preserves the observable behaviour of every operation
modelled here).
-/

namespace Chess

/-- BOARD_LENGTH = 8, the number of rows and columns. -/
def BOARD_LENGTH : Int := 8

/-- The data of `ChessPiece` (ChessPiece.hpp): color string, position,
orientation flag, size, type tag and the has-moved flag. -/
structure ChessPiece where
  color_ : String
  row_ : Int
  column_ : Int
  movingUp_ : Bool
  piece_size_ : Int
  type_ : String
  has_moved_ : Bool
deriving DecidableEq

/-- ChessPiece::setRow: out-of-range rows take the piece off the board,
collapsing both coordinates to -1. -/
def ChessPiece.setRow (p : ChessPiece) (row : Int) : ChessPiece :=
  if row < 0 ∨ BOARD_LENGTH ≤ row then { p with row_ := -1, column_ := -1 }
  else { p with row_ := row }

/-- ChessPiece::setColumn: out-of-range columns take the piece off the
board, collapsing both coordinates to -1. -/
def ChessPiece.setColumn (p : ChessPiece) (column : Int) : ChessPiece :=
  if column < 0 ∨ BOARD_LENGTH ≤ column then { p with row_ := -1, column_ := -1 }
  else { p with column_ := column }

/-- ChessPiece::flagMoved: sets has_moved_ to true. -/
def ChessPiece.flagMoved (p : ChessPiece) : ChessPiece :=
  { p with has_moved_ := true }

/-- The loop body of ChessPiece::setColor: walk the characters while they
are alphabetic, converting each to uppercase; stop at the first
non-alphabetic character. -/
def upperWhileAlpha : List Char → List Char
  | [] => []
  | c :: cs => if c.isAlpha then c.toUpper :: upperWhileAlpha cs else []

/-- ChessPiece::setColor: builds the uppercase copy of the alphabetic
prefix; the color is assigned (and true returned) exactly when that
prefix covers the whole string. -/
def ChessPiece.setColor (p : ChessPiece) (color : String) : ChessPiece × Bool :=
  if (upperWhileAlpha color.data).length = color.data.length then
    ({ p with color_ := String.mk (upperWhileAlpha color.data) }, true)
  else (p, false)

/-- The parameterized ChessPiece constructor: color_ starts at "BLACK"
and is overridden by setColor when the argument is purely alphabetic;
row_/column_ start at -1, then setRow(row) runs, and setColumn(col)
runs only when the row was accepted. -/
def ChessPiece.base (color : String) (row col : Int) (movingUp : Bool)
    (size : Int) (type : String) : ChessPiece :=
  let p0 : ChessPiece :=
    { color_ := "BLACK", row_ := -1, column_ := -1, movingUp_ := movingUp,
      piece_size_ := size, type_ := type, has_moved_ := false }
  let p1 := (p0.setColor color).1
  let p2 := p1.setRow row
  if p2.row_ ≠ -1 then p2.setColumn col else p2

/-- The Pawn constructor (size 1, type "PAWN"). -/
def Pawn (color : String) (row col : Int) (movingUp : Bool) : ChessPiece :=
  ChessPiece.base color row col movingUp 1 "PAWN"

/-- The Rook constructor (size 2, type "ROOK"); the castle_moves_left_
member is not modelled because no modelled operation reads it. -/
def Rook (color : String) (row col : Int) (movingUp : Bool) : ChessPiece :=
  ChessPiece.base color row col movingUp 2 "ROOK"

/-- The Knight constructor (size 3, type "KNIGHT"). -/
def Knight (color : String) (row col : Int) (movingUp : Bool) : ChessPiece :=
  ChessPiece.base color row col movingUp 3 "KNIGHT"

/-- The Bishop constructor (size 3, type "BISHOP"). -/
def Bishop (color : String) (row col : Int) (movingUp : Bool) : ChessPiece :=
  ChessPiece.base color row col movingUp 3 "BISHOP"

/-- The Queen constructor (size 4, type "QUEEN"). -/
def Queen (color : String) (row col : Int) (movingUp : Bool) : ChessPiece :=
  ChessPiece.base color row col movingUp 4 "QUEEN"

/-- The King constructor (size 4, type "KING"). -/
def King (color : String) (row col : Int) (movingUp : Bool) : ChessPiece :=
  ChessPiece.base color row col movingUp 4 "KING"

/-- The board grid: 8 rows of 8 slots, each empty or holding a piece. -/
abbrev Grid := List (List (Option ChessPiece))

/-- Reading `board[row][col]`. Every access performed by the modelled
C++ code is in range (each caller range-checks first), so the guard
only totalizes the accesses the source never makes. -/
def Grid.cell (g : Grid) (row col : Int) : Option ChessPiece :=
  if 0 ≤ row ∧ row < 8 ∧ 0 ≤ col ∧ col < 8 then
    (g.getD row.toNat []).getD col.toNat none
  else none

/-- Writing `board[row][col] = v`. -/
def Grid.setCell (g : Grid) (row col : Int) (v : Option ChessPiece) : Grid :=
  g.set row.toNat ((g.getD row.toNat []).set col.toNat v)

/-- The grid really is 8x8, as every grid built by the C++ constructors
is (std::vector(8, std::vector<ChessPiece*>(8))). -/
def Grid.WF (g : Grid) : Prop :=
  g.length = 8 ∧ ∀ i : Nat, i < 8 → (g.getD i []).length = 8

instance (g : Grid) : Decidable g.WF := by
  unfold Grid.WF; infer_instance

/-- The guard `target_piece && target_piece->getColor() == getColor()`
shared by every canMove variant. -/
def occupiedBySameColor (t : Option ChessPiece) (c : String) : Bool :=
  match t with
  | some q => q.color_ == c
  | none => false

/-- Pawn::canDoubleJump: true exactly when the pawn has never moved. -/
def Pawn.canDoubleJump (p : ChessPiece) : Bool :=
  !p.has_moved_

/-- Pawn::canMove (Pawn.cpp): straight advance by 1, or by 2 when
canDoubleJump (no intermediate-square check), onto an empty square in
the same column; or a diagonal capture one row ahead. -/
def Pawn.canMove (p : ChessPiece) (target_row target_col : Int) (board : Grid) : Bool :=
  if p.row_ = -1 ∨ p.column_ = -1 then false
  else if target_row < 0 ∨ 8 ≤ target_row ∨ target_col < 0 ∨ 8 ≤ target_col then false
  else if occupiedBySameColor (board.cell target_row target_col) p.color_ then false
  else
    let target_piece := board.cell target_row target_col
    let direction : Int := if p.movingUp_ then 1 else -1
    let can_move_straight :=
      (target_piece.isNone && p.column_ == target_col) &&
      ((p.row_ + direction == target_row) ||
        (Pawn.canDoubleJump p && p.row_ + direction * 2 == target_row))
    let can_capture_diagonal :=
      (target_piece.isSome && (p.column_ - target_col).natAbs == 1) &&
      (p.row_ + direction == target_row)
    can_move_straight || can_capture_diagonal

/-- The while loop of Rook::canMove: starting one step from the origin,
step `fuel` times toward the target checking occupancy of each stepped
square. The C++ loop runs until temp == target, which for an accepted
straight move is exactly |row delta| + |column delta| steps, so the
scan includes the destination square itself. -/
def Rook.pathClear (board : Grid) (r c inc_r inc_c : Int) : Nat → Bool
  | 0 => true
  | n + 1 =>
    let r2 := r + inc_r
    let c2 := c + inc_c
    if (board.cell r2 c2).isSome then false
    else Rook.pathClear board r2 c2 inc_r inc_c n

/-- Rook::canMove (Rook.cpp): purely horizontal or vertical motion with
the stepped squares (destination included, see Rook.pathClear) empty. -/
def Rook.canMove (p : ChessPiece) (target_row target_col : Int) (board : Grid) : Bool :=
  if p.row_ = -1 ∨ p.column_ = -1 then false
  else if target_row < 0 ∨ 8 ≤ target_row ∨ target_col < 0 ∨ 8 ≤ target_col then false
  else if occupiedBySameColor (board.cell target_row target_col) p.color_ then false
  else
    let row_difference := target_row - p.row_
    let col_difference := target_col - p.column_
    let stays_in_same_position := row_difference = 0 ∧ col_difference = 0
    let moves_straight := row_difference = 0 ∨ col_difference = 0
    if stays_in_same_position ∨ ¬ moves_straight then false
    else
      let increment_row : Int :=
        if row_difference > 0 then 1 else if row_difference < 0 then -1 else 0
      let increment_col : Int :=
        if col_difference > 0 then 1 else if col_difference < 0 then -1 else 0
      Rook.pathClear board p.row_ p.column_ increment_row increment_col
        (row_difference.natAbs + col_difference.natAbs)

/-- Knight::canMove (Knight.cpp): the L-jump, no obstruction check. -/
def Knight.canMove (p : ChessPiece) (target_row target_col : Int) (board : Grid) : Bool :=
  if p.row_ = -1 ∨ p.column_ = -1 then false
  else if target_row < 0 ∨ 8 ≤ target_row ∨ target_col < 0 ∨ 8 ≤ target_col then false
  else if occupiedBySameColor (board.cell target_row target_col) p.color_ then false
  else
    let abs_dx := (p.row_ - target_row).natAbs
    let abs_dy := (p.column_ - target_col).natAbs
    (abs_dx == 1 && abs_dy == 2) || (abs_dx == 2 && abs_dy == 1)

/-- The scan loop shared textually by Bishop::canMove and Queen::canMove:
`while ((dx -= row_offset) != 0 && (dy -= col_offset) != 0) check`.
The loop exits (path "clear") as soon as either updated delta hits 0;
dy is only updated when the updated dx is nonzero (short-circuit).
The fuel bounds the iteration count; on every input reachable from
the canMove guards the loop exits before the fuel does. -/
def scanTowardOrigin (board : Grid) (row col row_offset col_offset : Int) :
    Int → Int → Nat → Bool
  | _, _, 0 => true
  | dx, dy, n + 1 =>
    let dx2 := dx - row_offset
    if dx2 = 0 then true
    else
      let dy2 := dy - col_offset
      if dy2 = 0 then true
      else if (board.cell (row + dx2) (col + dy2)).isSome then false
      else scanTowardOrigin board row col row_offset col_offset dx2 dy2 n

/-- Bishop::canMove (Bishop.cpp): diagonal motion with the intermediate
diagonal squares empty (the scan walks from the target side back toward
the origin, both endpoints excluded). -/
def Bishop.canMove (p : ChessPiece) (target_row target_col : Int) (board : Grid) : Bool :=
  if p.row_ = -1 ∨ p.column_ = -1 then false
  else if target_row < 0 ∨ 8 ≤ target_row ∨ target_col < 0 ∨ 8 ≤ target_col then false
  else if occupiedBySameColor (board.cell target_row target_col) p.color_ then false
  else
    let dx := target_row - p.row_
    let dy := target_col - p.column_
    let not_diagonal := dx.natAbs ≠ dy.natAbs
    let no_movement := dx = 0 ∧ dy = 0
    if not_diagonal ∨ no_movement then false
    else
      let row_offset := dx / (dx.natAbs : Int)
      let col_offset := dy / (dy.natAbs : Int)
      scanTowardOrigin board p.row_ p.column_ row_offset col_offset dx dy
        (dx.natAbs + dy.natAbs + 1)

/-- Queen::canMove (Queen.cpp): straight or diagonal motion, then the
same scan loop as Bishop but with offsets that are 0 along a straight
line; with a zero offset the loop condition fails at once, so straight
moves are not scanned at all. -/
def Queen.canMove (p : ChessPiece) (target_row target_col : Int) (board : Grid) : Bool :=
  if p.row_ = -1 ∨ p.column_ = -1 then false
  else if target_row < 0 ∨ 8 ≤ target_row ∨ target_col < 0 ∨ 8 ≤ target_col then false
  else if occupiedBySameColor (board.cell target_row target_col) p.color_ then false
  else
    let dx := target_row - p.row_
    let dy := target_col - p.column_
    let no_movement := dx = 0 ∧ dy = 0
    let not_straight := dx ≠ 0 ∧ dy ≠ 0
    let not_diagonal := dx.natAbs ≠ dy.natAbs
    if no_movement ∨ (not_straight ∧ not_diagonal) then false
    else
      let row_offset : Int := if dx ≠ 0 then dx / (dx.natAbs : Int) else 0
      let col_offset : Int := if dy ≠ 0 then dy / (dy.natAbs : Int) else 0
      scanTowardOrigin board p.row_ p.column_ row_offset col_offset dx dy
        (dx.natAbs + dy.natAbs + 1)

/-- King::canMove (King.cpp): both deltas at most 1 in absolute value,
and not staying on the same square. -/
def King.canMove (p : ChessPiece) (target_row target_col : Int) (board : Grid) : Bool :=
  if p.row_ = -1 ∨ p.column_ = -1 then false
  else if target_row < 0 ∨ 8 ≤ target_row ∨ target_col < 0 ∨ 8 ≤ target_col then false
  else if occupiedBySameColor (board.cell target_row target_col) p.color_ then false
  else
    (target_row != p.row_ || target_col != p.column_) &&
      ((target_row - p.row_).natAbs ≤ 1 && (target_col - p.column_).natAbs ≤ 1)

/-- The virtual dispatch of `piece->canMove(...)`: every concrete piece
class sets type_ to its own class name in all of its constructors, so
dispatching on the type tag agrees with C++ virtual dispatch for every
piece the program can construct (the base class is abstract). -/
def ChessPiece.canMove (p : ChessPiece) (target_row target_col : Int) (board : Grid) : Bool :=
  if p.type_ = "PAWN" then Pawn.canMove p target_row target_col board
  else if p.type_ = "ROOK" then Rook.canMove p target_row target_col board
  else if p.type_ = "KNIGHT" then Knight.canMove p target_row target_col board
  else if p.type_ = "BISHOP" then Bishop.canMove p target_row target_col board
  else if p.type_ = "QUEEN" then Queen.canMove p target_row target_col board
  else if p.type_ = "KING" then King.canMove p target_row target_col board
  else false

/-- A square is a (row, column) pair (Move.hpp). -/
abbrev Square := Int × Int

/-- The Move record (Move.hpp / Move.cpp): origin, destination, the
moved piece and the captured piece (none when nothing was captured).
In C++ the piece fields are non-owning pointers; a captured piece is
never mutated between its capture and the undo that reads it, so the
value snapshot taken here observes the same data. -/
structure Move where
  moved_piece_ : Option ChessPiece
  captured_piece_ : Option ChessPiece
  from_ : Square
  to_ : Square
deriving DecidableEq

/-- The ChessBoard state (ChessBoard.hpp): turn flag, player colors,
grid and the history stack (head = top).  The `pieces` ownership list
only drives deallocation and is not part of any modelled behaviour. -/
structure ChessBoard where
  playerOneTurn : Bool
  p1_color : String
  p2_color : String
  board : Grid
  past_moves_ : List Move
deriving DecidableEq

/-- BoardColorizer::ALLOWED_COLORS. -/
def ALLOWED_COLORS : List String :=
  ["BLACK", "RED", "GREEN", "YELLOW", "BLUE", "MAGENTA", "CYAN", "WHITE"]

/-- An 8x8 grid of empty slots. -/
def emptyGrid : Grid :=
  List.replicate 8 (List.replicate 8 none)

/-- inner_pieces of the standard constructor. -/
def inner_pieces : List String :=
  ["ROOK", "KNIGHT", "BISHOP", "KING", "QUEEN", "BISHOP", "KNIGHT", "ROOK"]

/-- The add_mirrored lambda of the standard constructor: place the
player-one piece on the bottom half and the player-two piece on the
top half of column i.  Only the bottom pawns are flagged moving up;
every other movingUp flag is default-initialized to false. -/
def add_mirrored (p1c p2c : String) (g : Grid) (i : Int) (type : String) : Grid :=
  if type = "PAWN" then
    (g.setCell 1 i (some (Pawn p1c 1 i true))).setCell 6 i (some (Pawn p2c 6 i false))
  else if type = "ROOK" then
    (g.setCell 0 i (some (Rook p1c 0 i false))).setCell 7 i (some (Rook p2c 7 i false))
  else if type = "KNIGHT" then
    (g.setCell 0 i (some (Knight p1c 0 i false))).setCell 7 i (some (Knight p2c 7 i false))
  else if type = "BISHOP" then
    (g.setCell 0 i (some (Bishop p1c 0 i false))).setCell 7 i (some (Bishop p2c 7 i false))
  else if type = "KING" then
    (g.setCell 0 i (some (King p1c 0 i false))).setCell 7 i (some (King p2c 7 i false))
  else if type = "QUEEN" then
    (g.setCell 0 i (some (Queen p1c 0 i false))).setCell 7 i (some (Queen p2c 7 i false))
  else g

/-- The piece-placement loop of the standard constructor: for each
column i place the pawns, then the back-rank piece inner_pieces[i]. -/
def standardGrid (p1c p2c : String) : Grid :=
  (List.range 8).foldl
    (fun g (i : Nat) =>
      add_mirrored p1c p2c (add_mirrored p1c p2c g (i : Int) "PAWN") (i : Int)
        (inner_pieces.getD i ""))
    emptyGrid

/-- The standard ChessBoard constructor: validates the two display
colors against ALLOWED_COLORS (falling back to "BLACK"/"WHITE" on an
invalid or duplicate assignment), sets playerOneTurn to true, builds
the standard layout and starts with an empty history. -/
def ChessBoard.mkStandard (assignedColorP1 assignedColorP2 : String) : ChessBoard :=
  let initializedInvalidColor :=
    !(ALLOWED_COLORS.contains assignedColorP1 && ALLOWED_COLORS.contains assignedColorP2)
  let colors :=
    if initializedInvalidColor || assignedColorP1 == assignedColorP2 then
      ("BLACK", "WHITE")
    else (assignedColorP1, assignedColorP2)
  { playerOneTurn := true, p1_color := colors.1, p2_color := colors.2,
    board := standardGrid colors.1 colors.2, past_moves_ := [] }

/-- The grid-injection ChessBoard constructor: adopts the given grid
and turn flag, with the fixed "BLACK"/"WHITE" player colors. -/
def ChessBoard.ofGrid (instanceGrid : Grid) (p1Turn : Bool) : ChessBoard :=
  { playerOneTurn := p1Turn, p1_color := "BLACK", p2_color := "WHITE",
    board := instanceGrid, past_moves_ := [] }

/-- The `captured_piece && captured_piece->getType() == "KING"` test of
ChessBoard::move. -/
def isKingSlot (t : Option ChessPiece) : Bool :=
  match t with
  | some q => q.type_ == "KING"
  | none => false

/-- ChessBoard::move: reject on out-of-range source, empty source,
wrong-color piece, a rejecting movement predicate, or a KING at the
destination; otherwise write the relocated piece (row/column updated,
has_moved_ set) to the destination slot, clear the source slot, and
return true.  The turn flag is not touched here. -/
def ChessBoard.move (b : ChessBoard) (row col new_row new_col : Int) :
    Bool × ChessBoard :=
  if row < 0 ∨ col < 0 ∨ BOARD_LENGTH ≤ row ∨ BOARD_LENGTH ≤ col then (false, b)
  else
    match b.board.cell row col with
    | none => (false, b)
    | some movingPiece =>
      if movingPiece.color_ ≠ (if b.playerOneTurn then b.p1_color else b.p2_color) then
        (false, b)
      else if movingPiece.canMove new_row new_col b.board then
        if isKingSlot (b.board.cell new_row new_col) then (false, b)
        else
          (true,
            { b with
              board :=
                (b.board.setCell new_row new_col
                  (some (((movingPiece.setRow new_row).setColumn new_col).flagMoved))).setCell
                  row col none })
      else (false, b)

/-- ChessBoard::undo: with an empty history fail; otherwise move the
destination slot's occupant back to the origin slot, clear the
destination slot, restore the recorded captured piece (if any) into
the destination slot, and pop the record.  No piece's row_/column_ is
updated and playerOneTurn is not touched. -/
def ChessBoard.undo (b : ChessBoard) : Bool × ChessBoard :=
  match b.past_moves_ with
  | [] => (false, b)
  | previous_move :: rest =>
    let g1 := b.board.setCell previous_move.from_.1 previous_move.from_.2
      (b.board.cell previous_move.to_.1 previous_move.to_.2)
    let g2 := g1.setCell previous_move.to_.1 previous_move.to_.2 none
    let g3 :=
      match previous_move.captured_piece_ with
      | some cp => g2.setCell previous_move.to_.1 previous_move.to_.2 (some cp)
      | none => g2
    (true, { b with board := g3, past_moves_ := rest })

/-- The move path of ChessBoard::attemptRound, with the two parsed
squares abstracting the console input: attempt move(); on success push
a Move built from origin, destination and the piece now at the
destination - the captured_piece argument is left at its default
nullptr - and toggle playerOneTurn; on failure change nothing. -/
def ChessBoard.attemptRoundMove (b : ChessBoard) (fr fc tr tc : Int) :
    Bool × ChessBoard :=
  let step := b.move fr fc tr tc
  if step.1 then
    let piece_ptr := step.2.board.cell tr tc
    let new_move : Move :=
      { moved_piece_ := piece_ptr, captured_piece_ := none,
        from_ := (fr, fc), to_ := (tr, tc) }
    (true,
      { step.2 with
        past_moves_ := new_move :: step.2.past_moves_
        playerOneTurn := !step.2.playerOneTurn })
  else (false, step.2)

/-- The undo path of ChessBoard::attemptRound, taken when input parsing
fails: it returns the result of undo() directly; the step-7 toggle of
playerOneTurn appears only on the move path. -/
def ChessBoard.attemptRoundUndo (b : ChessBoard) : Bool × ChessBoard :=
  b.undo

/-- ChessBoard::getCell is the unchecked access `board[row][col]`; the
source performs no bounds check, so only in-range reads are defined
behaviour.  In this total embedding `none` marks the out-of-range
(undefined) access and `some occupant` the defined in-range result. -/
def ChessBoard.getCell (b : ChessBoard) (row col : Int) :
    Option (Option ChessPiece) :=
  if 0 ≤ row ∧ row < 8 ∧ 0 ≤ col ∧ col < 8 then some (b.board.cell row col)
  else none

/-- The default-constructed standard board (ChessBoard()): validated
colors "BLACK"/"WHITE", standard layout, player one to move. -/
def standardBoard : ChessBoard :=
  ChessBoard.mkStandard "BLACK" "WHITE"

/-- A board built through the grid-injection constructor: a BLACK pawn
moving up on (3,3) and a WHITE pawn on (4,4), player one to move, so
that (3,3)->(4,4) is a legal diagonal pawn capture. -/
def captureBoard : ChessBoard :=
  ChessBoard.ofGrid
    ((emptyGrid.setCell 3 3 (some (Pawn "BLACK" 3 3 true))).setCell 4 4
      (some (Pawn "WHITE" 4 4 false)))
    true

/-- A grid with a BLACK rook on (0,0) and a WHITE pawn on (0,3), the
squares strictly between them empty. -/
def rookCaptureGrid : Grid :=
  (emptyGrid.setCell 0 0 (some (Rook "BLACK" 0 0 false))).setCell 0 3
    (some (Pawn "WHITE" 0 3 false))

/-- A grid with a BLACK queen on (0,0) and a WHITE pawn blocking the
horizontal path at (0,1). -/
def queenHBlockedGrid : Grid :=
  (emptyGrid.setCell 0 0 (some (Queen "BLACK" 0 0 false))).setCell 0 1
    (some (Pawn "WHITE" 0 1 false))

/-- A grid with a BLACK queen on (0,0) and a WHITE pawn blocking the
vertical path at (1,0). -/
def queenVBlockedGrid : Grid :=
  (emptyGrid.setCell 0 0 (some (Queen "BLACK" 0 0 false))).setCell 1 0
    (some (Pawn "WHITE" 1 0 false))

/-- A grid with a BLACK queen on (0,0) and a WHITE pawn blocking the
diagonal path at (1,1). -/
def queenDBlockedGrid : Grid :=
  (emptyGrid.setCell 0 0 (some (Queen "BLACK" 0 0 false))).setCell 1 1
    (some (Pawn "WHITE" 1 1 false))

/-! ### Supporting lemmas -/

theorem getD_set_self {α : Type} :
    ∀ (l : List α) (n : Nat) (a d : α), n < l.length → (l.set n a).getD n d = a
  | [], n, _, _, h => absurd h (by simp)
  | _ :: _, 0, _, _, _ => rfl
  | _ :: xs, n + 1, a, d, h => getD_set_self xs n a d (by simpa using h)

theorem getD_set_ne {α : Type} :
    ∀ (l : List α) (m n : Nat) (a d : α), m ≠ n → (l.set m a).getD n d = l.getD n d
  | [], _, _, _, _, _ => rfl
  | _ :: _, 0, 0, _, _, h => absurd rfl h
  | _ :: _, 0, _ + 1, _, _, _ => rfl
  | _ :: _, _ + 1, 0, _, _, _ => rfl
  | _ :: xs, m + 1, n + 1, a, d, h => getD_set_ne xs m n a d (fun e => h (by omega))

theorem Grid.setCell_WF (g : Grid) (hg : g.WF) (r c : Int)
    (_hr0 : 0 ≤ r) (_hr8 : r < 8) (_hc0 : 0 ≤ c) (_hc8 : c < 8)
    (v : Option ChessPiece) : (g.setCell r c v).WF := by
  obtain ⟨hlen, hrow⟩ := hg
  constructor
  · simpa [Grid.setCell] using hlen
  · intro i hi
    unfold Grid.setCell
    by_cases hir : r.toNat = i
    · subst hir
      rw [getD_set_self _ _ _ _ (by omega)]
      simpa using hrow r.toNat (by omega)
    · rw [getD_set_ne _ _ _ _ _ hir]
      exact hrow i hi

theorem Grid.cell_setCell_self (g : Grid) (hg : g.WF) (r c : Int)
    (hr0 : 0 ≤ r) (hr8 : r < 8) (hc0 : 0 ≤ c) (hc8 : c < 8)
    (v : Option ChessPiece) : (g.setCell r c v).cell r c = v := by
  obtain ⟨hlen, hrow⟩ := hg
  unfold Grid.cell Grid.setCell
  rw [if_pos ⟨hr0, hr8, hc0, hc8⟩]
  rw [getD_set_self _ _ _ _ (by omega)]
  exact getD_set_self _ _ _ _ (by have := hrow r.toNat (by omega); omega)

theorem Grid.cell_setCell_ne (g : Grid) (hg : g.WF) (r c : Int)
    (_hr0 : 0 ≤ r) (_hr8 : r < 8) (_hc0 : 0 ≤ c) (_hc8 : c < 8)
    (v : Option ChessPiece) (r2 c2 : Int) (hne : ¬(r2 = r ∧ c2 = c)) :
    (g.setCell r c v).cell r2 c2 = g.cell r2 c2 := by
  obtain ⟨hlen, hrow⟩ := hg
  unfold Grid.cell Grid.setCell
  by_cases hin : 0 ≤ r2 ∧ r2 < 8 ∧ 0 ≤ c2 ∧ c2 < 8
  · rw [if_pos hin, if_pos hin]
    by_cases hrr : r2 = r
    · subst hrr
      have hcc : c2 ≠ c := fun e => hne ⟨rfl, e⟩
      rw [getD_set_self _ _ _ _ (by omega)]
      exact getD_set_ne _ _ _ _ _ (by omega)
    · rw [getD_set_ne _ _ _ _ _ (by omega)]
  · rw [if_neg hin, if_neg hin]

theorem pawn_canMove_guard_facts (p : ChessPiece) (tr tc : Int) (g : Grid)
    (h : Pawn.canMove p tr tc g = true) :
    (0 ≤ tr ∧ tr < 8 ∧ 0 ≤ tc ∧ tc < 8) ∧
      occupiedBySameColor (g.cell tr tc) p.color_ = false := by
  unfold Pawn.canMove at h
  split_ifs at h with h1 h2 h3
  all_goals exact ⟨by omega, by simpa using h3⟩

theorem rook_canMove_guard_facts (p : ChessPiece) (tr tc : Int) (g : Grid)
    (h : Rook.canMove p tr tc g = true) :
    (0 ≤ tr ∧ tr < 8 ∧ 0 ≤ tc ∧ tc < 8) ∧
      occupiedBySameColor (g.cell tr tc) p.color_ = false := by
  unfold Rook.canMove at h
  split_ifs at h with h1 h2 h3
  all_goals exact ⟨by omega, by simpa using h3⟩

theorem knight_canMove_guard_facts (p : ChessPiece) (tr tc : Int) (g : Grid)
    (h : Knight.canMove p tr tc g = true) :
    (0 ≤ tr ∧ tr < 8 ∧ 0 ≤ tc ∧ tc < 8) ∧
      occupiedBySameColor (g.cell tr tc) p.color_ = false := by
  unfold Knight.canMove at h
  split_ifs at h with h1 h2 h3
  all_goals exact ⟨by omega, by simpa using h3⟩

theorem bishop_canMove_guard_facts (p : ChessPiece) (tr tc : Int) (g : Grid)
    (h : Bishop.canMove p tr tc g = true) :
    (0 ≤ tr ∧ tr < 8 ∧ 0 ≤ tc ∧ tc < 8) ∧
      occupiedBySameColor (g.cell tr tc) p.color_ = false := by
  unfold Bishop.canMove at h
  split_ifs at h with h1 h2 h3
  all_goals exact ⟨by omega, by simpa using h3⟩

theorem queen_canMove_guard_facts (p : ChessPiece) (tr tc : Int) (g : Grid)
    (h : Queen.canMove p tr tc g = true) :
    (0 ≤ tr ∧ tr < 8 ∧ 0 ≤ tc ∧ tc < 8) ∧
      occupiedBySameColor (g.cell tr tc) p.color_ = false := by
  unfold Queen.canMove at h
  split_ifs at h with h1 h2 h3
  all_goals exact ⟨by omega, by simpa using h3⟩

theorem king_canMove_guard_facts (p : ChessPiece) (tr tc : Int) (g : Grid)
    (h : King.canMove p tr tc g = true) :
    (0 ≤ tr ∧ tr < 8 ∧ 0 ≤ tc ∧ tc < 8) ∧
      occupiedBySameColor (g.cell tr tc) p.color_ = false := by
  unfold King.canMove at h
  split_ifs at h with h1 h2 h3
  all_goals exact ⟨by omega, by simpa using h3⟩

theorem canMove_true_facts (p : ChessPiece) (tr tc : Int) (g : Grid)
    (h : p.canMove tr tc g = true) :
    (0 ≤ tr ∧ tr < 8 ∧ 0 ≤ tc ∧ tc < 8) ∧
      occupiedBySameColor (g.cell tr tc) p.color_ = false := by
  unfold ChessPiece.canMove at h
  split_ifs at h
  exacts [pawn_canMove_guard_facts p tr tc g h, rook_canMove_guard_facts p tr tc g h,
    knight_canMove_guard_facts p tr tc g h, bishop_canMove_guard_facts p tr tc g h,
    queen_canMove_guard_facts p tr tc g h, king_canMove_guard_facts p tr tc g h]

theorem canMove_oob_false (p : ChessPiece) (g : Grid) (nr nc : Int)
    (h : nr < 0 ∨ 8 ≤ nr ∨ nc < 0 ∨ 8 ≤ nc) :
    p.canMove nr nc g = false := by
  rcases hb : p.canMove nr nc g with _ | _
  · rfl
  · have := (canMove_true_facts p nr nc g hb).1
    omega

theorem ChessBoard.move_rejected_eq (b : ChessBoard) (row col new_row new_col : Int)
    (h : (b.move row col new_row new_col).1 = false) :
    (b.move row col new_row new_col).2 = b := by
  revert h
  rcases hmv : b.move row col new_row new_col with ⟨ok, b2⟩
  intro h
  change ok = false at h
  change b2 = b
  unfold ChessBoard.move at hmv
  repeat' split at hmv
  all_goals injection hmv with h1 h2
  all_goals first
    | exact h2.symm
    | exact Bool.noConfusion (h1.trans h)

theorem ChessBoard.move_success_dest (b : ChessBoard) (row col new_row new_col : Int)
    (hwf : b.board.WF) (h : (b.move row col new_row new_col).1 = true) :
    ∃ q, (b.move row col new_row new_col).2.board.cell new_row new_col = some q ∧
      q.has_moved_ = true := by
  revert h
  rcases hmv : b.move row col new_row new_col with ⟨ok, b2⟩
  intro h
  change ok = true at h
  unfold ChessBoard.move at hmv
  repeat' split at hmv
  all_goals injection hmv with h1 h2
  all_goals first
    | exact Bool.noConfusion (h1.trans h)
    | (rename_i hsrc mpopt movingPiece heq hturn hcolor hcm hking
       subst h2
       have hfacts := canMove_true_facts movingPiece new_row new_col b.board hcm
       obtain ⟨⟨hnr0, hnr8, hnc0, hnc8⟩, hocc⟩ := hfacts
       have hr0 : 0 ≤ row ∧ row < 8 ∧ 0 ≤ col ∧ col < 8 := by
         unfold BOARD_LENGTH at hsrc; omega
       have hne : ¬(new_row = row ∧ new_col = col) := by
         rintro ⟨e1, e2⟩
         subst e1; subst e2
         rw [heq] at hocc
         simp [occupiedBySameColor] at hocc
       refine ⟨((movingPiece.setRow new_row).setColumn new_col).flagMoved, ?_, rfl⟩
       rw [Grid.cell_setCell_ne _
           (Grid.setCell_WF b.board hwf new_row new_col hnr0 hnr8 hnc0 hnc8 _)
           row col hr0.1 hr0.2.1 hr0.2.2.1 hr0.2.2.2 none new_row new_col hne]
       exact Grid.cell_setCell_self b.board hwf new_row new_col hnr0 hnr8 hnc0 hnc8 _)

theorem Pawn.double_jump_iff (p : ChessPiece) (g : Grid) (tr tc : Int)
    (hrow : p.row_ ≠ -1) (hcol : p.column_ ≠ -1)
    (htr0 : 0 ≤ tr) (htr8 : tr < 8) (htc0 : 0 ≤ tc) (htc8 : tc < 8)
    (hsame : tc = p.column_)
    (hjump : tr = p.row_ + (if p.movingUp_ then (1 : Int) else -1) * 2)
    (hempty : g.cell tr tc = none) :
    Pawn.canMove p tr tc g = !p.has_moved_ := by
  unfold Pawn.canMove
  rw [if_neg (show ¬(p.row_ = -1 ∨ p.column_ = -1) by tauto)]
  rw [if_neg (show ¬(tr < 0 ∨ 8 ≤ tr ∨ tc < 0 ∨ 8 ≤ tc) by omega)]
  rw [if_neg (show ¬(occupiedBySameColor (g.cell tr tc) p.color_ = true) by
    rw [hempty]; simp [occupiedBySameColor])]
  subst hsame
  subst hjump
  rcases hm : p.has_moved_ <;> rcases hup : p.movingUp_ <;>
    simp_all [Pawn.canDoubleJump]

theorem upperWhileAlpha_length_le (l : List Char) :
    (upperWhileAlpha l).length ≤ l.length := by
  induction l with
  | nil => simp [upperWhileAlpha]
  | cons c cs ih =>
    by_cases h : c.isAlpha
    · simp only [upperWhileAlpha, if_pos h, List.length_cons]
      omega
    · simp [upperWhileAlpha, h]

theorem upperWhileAlpha_length_eq_iff (l : List Char) :
    (upperWhileAlpha l).length = l.length ↔ ∀ c ∈ l, c.isAlpha := by
  induction l with
  | nil => simp [upperWhileAlpha]
  | cons c cs ih =>
    by_cases h : c.isAlpha
    · simpa [upperWhileAlpha, h] using ih
    · simp only [upperWhileAlpha, if_neg h, List.length_nil, List.length_cons]
      constructor
      · omega
      · intro hall
        exact absurd (hall c (by simp)) h

theorem upperWhileAlpha_eq_map (l : List Char) (h : ∀ c ∈ l, c.isAlpha) :
    upperWhileAlpha l = l.map Char.toUpper := by
  induction l with
  | nil => rfl
  | cons c cs ih =>
    rw [upperWhileAlpha, if_pos (h c (by simp)), List.map_cons,
      ih (fun x hx => h x (by simp [hx]))]

/-! ### Claim theorems -/

/-- C1: the claim states that a successful move executed and recorded
via a round, followed by a successful undo(), restores the grid to its
exact pre-move state - placing the captured piece, if any, back on the
destination square - and restores the turn flag.  The code contradicts
this: on a concrete capturing round (BLACK pawn (3,3) takes WHITE pawn
(4,4)), the subsequent undo succeeds but leaves square (4,4) empty
(attemptRound records no captured piece) and leaves the turn flag at
its post-move value (no path toggles it back), so neither the grid nor
the turn flag is restored. -/
theorem C1_undo_not_perfect_inverse :
    (captureBoard.attemptRoundMove 3 3 4 4).1 = true ∧
      ((captureBoard.attemptRoundMove 3 3 4 4).2.undo).1 = true ∧
      ((captureBoard.attemptRoundMove 3 3 4 4).2.undo).2.board.cell 4 4 = none ∧
      ((captureBoard.attemptRoundMove 3 3 4 4).2.undo).2.board ≠ captureBoard.board ∧
      ((captureBoard.attemptRoundMove 3 3 4 4).2.undo).2.playerOneTurn ≠
        captureBoard.playerOneTurn := by
  decide

/-- C2: the claim states that a successful undo toggles playerOneTurn
exactly once.  The code contradicts it: after one successful round
(turn toggles to player two), a successful undo leaves playerOneTurn
unchanged, because the toggle of attemptRound step 7 is only executed
on the successful-move path, never on the undo path. -/
theorem C2_successful_undo_keeps_turn :
    (standardBoard.attemptRoundMove 1 0 2 0).1 = true ∧
      (standardBoard.attemptRoundMove 1 0 2 0).2.playerOneTurn = false ∧
      ((standardBoard.attemptRoundMove 1 0 2 0).2.attemptRoundUndo).1 = true ∧
      ((standardBoard.attemptRoundMove 1 0 2 0).2.attemptRoundUndo).2.playerOneTurn =
        false := by
  decide

/-- C3: the claim states that a rook may move onto a destination square
occupied by an opposing piece when the strictly-between squares are
empty.  The code contradicts it: with a BLACK rook on (0,0), a WHITE
pawn on (0,3), and (0,1), (0,2) empty, Rook::canMove(0,3) returns
false, because the obstruction loop steps all the way to the target
and also tests the destination square's occupancy. -/
theorem C3_rook_capture_rejected :
    (Rook "BLACK" 0 0 false).row_ = 0 ∧ (Rook "BLACK" 0 0 false).column_ = 0 ∧
      (Rook "BLACK" 0 0 false).color_ = "BLACK" ∧
      rookCaptureGrid.cell 0 1 = none ∧ rookCaptureGrid.cell 0 2 = none ∧
      (rookCaptureGrid.cell 0 3).map ChessPiece.color_ = some "WHITE" ∧
      Rook.canMove (Rook "BLACK" 0 0 false) 0 3 rookCaptureGrid = false ∧
      Rook.canMove (Rook "BLACK" 0 0 false) 0 2 rookCaptureGrid = true := by
  decide

/-- C4: the claim states that Queen::canMove returns false whenever an
intermediate square strictly between origin and destination is
occupied, on horizontal and vertical lines just as on diagonals.  The
code contradicts it: the scan loop exits at once when either delta is
zero, so a queen on (0,0) may move to (0,2) over a piece on (0,1) and
to (2,0) over a piece on (1,0); only the diagonal case is scanned. -/
theorem C4_queen_straight_line_unscanned :
    (queenHBlockedGrid.cell 0 1).isSome = true ∧
      Queen.canMove (Queen "BLACK" 0 0 false) 0 2 queenHBlockedGrid = true ∧
      (queenVBlockedGrid.cell 1 0).isSome = true ∧
      Queen.canMove (Queen "BLACK" 0 0 false) 2 0 queenVBlockedGrid = true ∧
      (queenDBlockedGrid.cell 1 1).isSome = true ∧
      Queen.canMove (Queen "BLACK" 0 0 false) 2 2 queenDBlockedGrid = false := by
  decide

/-- C5: the claim states that construction, move and undo all preserve
the invariant that each occupied cell's occupant stores that cell's
coordinates.  The code contradicts it for undo: after the round
move(1,0,2,0) and a successful undo, the pawn again occupies (1,0) but
its stored row_ is still 2, because undo rewires the grid without
calling setRow/setColumn on the moved piece. -/
theorem C5_undo_breaks_position_invariant :
    (standardBoard.attemptRoundMove 1 0 2 0).1 = true ∧
      ((standardBoard.attemptRoundMove 1 0 2 0).2.undo).1 = true ∧
      (((standardBoard.attemptRoundMove 1 0 2 0).2.undo).2.board.cell 1 0).map
          ChessPiece.row_ = some 2 ∧
      (((standardBoard.attemptRoundMove 1 0 2 0).2.undo).2.board.cell 1 0).map
          ChessPiece.column_ = some 0 := by
  decide

/-- C6 counterexample: the claim states the direct call sequence
move(1,0,2,0); move(6,0,4,0); move(0,0,0,1) returns true, true, false.
On a freshly constructed standard board the second call already
returns false: ChessBoard::move never toggles playerOneTurn, so the
WHITE pawn at (6,0) is rejected as a wrong-color piece while it is
still player one's (BLACK) turn. -/
theorem C6_counterexample_direct_moves :
    (standardBoard.move 1 0 2 0).1 = true ∧
      ((standardBoard.move 1 0 2 0).2.move 6 0 4 0).1 = false := by
  decide

/-- C6 amended: executed as rounds (attemptRound's move path, which
toggles the turn after each successful move), the sequence returns
true, then true, then false, and the third (rejected) round leaves the
entire board state unchanged. -/
theorem C6_amended_round_scenario :
    (standardBoard.attemptRoundMove 1 0 2 0).1 = true ∧
      ((standardBoard.attemptRoundMove 1 0 2 0).2.attemptRoundMove 6 0 4 0).1 =
        true ∧
      (((standardBoard.attemptRoundMove 1 0 2 0).2.attemptRoundMove 6 0
            4 0).2.attemptRoundMove 0 0 0 1).1 = false ∧
      (((standardBoard.attemptRoundMove 1 0 2 0).2.attemptRoundMove 6 0
            4 0).2.attemptRoundMove 0 0 0 1).2 =
        ((standardBoard.attemptRoundMove 1 0 2 0).2.attemptRoundMove 6 0 4 0).2 := by
  decide

/-- C7: whenever ChessBoard::move returns false - out-of-range source,
empty source, wrong-color piece, rejecting movement predicate, or a
KING at the destination - the entire board state (grid, every piece,
turn flag, history) is left exactly as it was before the call. -/
theorem C7_move_rejection_no_side_effect (b : ChessBoard)
    (row col new_row new_col : Int)
    (h : (b.move row col new_row new_col).1 = false) :
    (b.move row col new_row new_col).2 = b :=
  ChessBoard.move_rejected_eq b row col new_row new_col h

theorem C7_witness :
    ((ChessBoard.mkStandard "BLACK" "WHITE").move 0 0 7 7).1 = false ∧
      ((ChessBoard.mkStandard "BLACK" "WHITE").move 0 0 7 7).2 =
        ChessBoard.mkStandard "BLACK" "WHITE" :=
  ⟨by decide, C7_move_rejection_no_side_effect _ 0 0 7 7 (by decide)⟩

/-- C8: for an on-board pawn with an in-range straight two-square
advance in its facing direction to an empty target square, the double
jump is legal exactly when the has-moved flag is false, whatever the
rest of the grid holds (in particular the intermediate square); after
any successful move the piece written to the destination has its
has-moved flag true; and with the flag true the two-square advance is
rejected, so the double jump is permanently illegal for that pawn. -/
theorem C8_pawn_double_jump :
    (∀ (p : ChessPiece) (g : Grid) (tr tc : Int),
        p.row_ ≠ -1 → p.column_ ≠ -1 →
        0 ≤ tr → tr < 8 → 0 ≤ tc → tc < 8 →
        tc = p.column_ →
        tr = p.row_ + (if p.movingUp_ then (1 : Int) else -1) * 2 →
        g.cell tr tc = none →
        Pawn.canMove p tr tc g = !p.has_moved_) ∧
    (∀ (b : ChessBoard) (row col new_row new_col : Int),
        b.board.WF → (b.move row col new_row new_col).1 = true →
        ∃ q, (b.move row col new_row new_col).2.board.cell new_row new_col =
            some q ∧ q.has_moved_ = true) ∧
    (∀ (p : ChessPiece) (g : Grid) (tr tc : Int),
        p.has_moved_ = true →
        p.row_ ≠ -1 → p.column_ ≠ -1 →
        0 ≤ tr → tr < 8 → 0 ≤ tc → tc < 8 →
        tc = p.column_ →
        tr = p.row_ + (if p.movingUp_ then (1 : Int) else -1) * 2 →
        g.cell tr tc = none →
        Pawn.canMove p tr tc g = false) := by
  refine ⟨fun p g tr tc h1 h2 h3 h4 h5 h6 h7 h8 h9 =>
      Pawn.double_jump_iff p g tr tc h1 h2 h3 h4 h5 h6 h7 h8 h9,
    fun b row col nr nc hwf h => ChessBoard.move_success_dest b row col nr nc hwf h,
    fun p g tr tc hm h1 h2 h3 h4 h5 h6 h7 h8 h9 => ?_⟩
  rw [Pawn.double_jump_iff p g tr tc h1 h2 h3 h4 h5 h6 h7 h8 h9, hm]
  rfl

theorem C8_witness :
    Pawn.canMove (Pawn "BLACK" 1 0 true) 3 0
      (emptyGrid.setCell 2 0 (some (Pawn "WHITE" 2 0 false))) = true ∧
    (∃ q, ((ChessBoard.mkStandard "BLACK" "WHITE").move 1 0 2 0).2.board.cell 2 0 =
        some q ∧ q.has_moved_ = true) ∧
    Pawn.canMove ((Pawn "BLACK" 1 0 true).flagMoved) 3 0 emptyGrid = false := by
  refine ⟨?_, ?_, ?_⟩
  · have h := C8_pawn_double_jump.1 (Pawn "BLACK" 1 0 true)
      (emptyGrid.setCell 2 0 (some (Pawn "WHITE" 2 0 false))) 3 0
      (by decide) (by decide) (by decide) (by decide) (by decide) (by decide)
      (by decide) (by decide) (by decide)
    exact h.trans (by decide)
  · exact C8_pawn_double_jump.2.1 (ChessBoard.mkStandard "BLACK" "WHITE") 1 0 2 0
      (by decide) (by decide)
  · exact C8_pawn_double_jump.2.2 ((Pawn "BLACK" 1 0 true).flagMoved) emptyGrid 3 0
      (by decide) (by decide) (by decide) (by decide) (by decide) (by decide)
      (by decide) (by decide) (by decide) (by decide)

/-- C9 counterexample: the claim states the stored color is always a
non-empty alphabetic uppercase string.  The empty string contains no
non-alphabetic character, so setColor("") succeeds and stores the
empty string as the color. -/
theorem C9_empty_string_color_accepted :
    ((Pawn "BLACK" 0 0 false).setColor "").2 = true ∧
      ((Pawn "BLACK" 0 0 false).setColor "").1.color_ = "" := by
  decide

/-- C9 amended: setColor(s) leaves the stored color unchanged and
reports failure if and only if s contains a non-alphabetic character;
otherwise it stores s converted character-by-character to uppercase
(and every character of s is alphabetic), so the stored color may be
the empty string when s is empty. -/
theorem C9_amended_setColor (p : ChessPiece) (s : String) :
    ((p.setColor s).2 = false ↔ ∃ c ∈ s.data, ¬ c.isAlpha) ∧
    ((p.setColor s).2 = false → (p.setColor s).1 = p) ∧
    ((p.setColor s).2 = true →
      (p.setColor s).1.color_ = String.mk (s.data.map Char.toUpper) ∧
        ∀ c ∈ s.data, c.isAlpha) := by
  unfold ChessPiece.setColor
  by_cases h : (upperWhileAlpha s.data).length = s.data.length
  · have hall : ∀ c ∈ s.data, c.isAlpha :=
      (upperWhileAlpha_length_eq_iff s.data).mp h
    rw [if_pos h]
    refine ⟨?_, fun hf => absurd hf (by simp), fun _ => ⟨?_, hall⟩⟩
    · constructor
      · intro hf; exact absurd hf (by simp)
      · rintro ⟨c, hc, hna⟩; exact absurd (hall c hc) hna
    · simp only
      rw [upperWhileAlpha_eq_map s.data hall]
  · rw [if_neg h]
    refine ⟨?_, fun _ => rfl, fun hf => absurd hf (by simp)⟩
    constructor
    · intro _
      by_contra hnone
      push_neg at hnone
      exact h ((upperWhileAlpha_length_eq_iff s.data).mpr hnone)
    · intro _; rfl

theorem C9_witness :
    ((Pawn "BLACK" 0 0 false).setColor "red").1.color_ = "RED" ∧
      ((Pawn "BLACK" 0 0 false).setColor "r3d").1 = Pawn "BLACK" 0 0 false := by
  have h1 := C9_amended_setColor (Pawn "BLACK" 0 0 false) "red"
  have h2 := C9_amended_setColor (Pawn "BLACK" 0 0 false) "r3d"
  exact ⟨(h1.2.2 (by decide)).1.trans (by decide), h2.2.1 (by decide)⟩

/-- C10: getCell indexes the grid with no bounds check, so in this
total embedding its result is defined (some) exactly when both
coordinates are in [0,8); by contrast, move() rejects out-of-range
source coordinates itself, and an out-of-range destination is rejected
inside every canMove variant. -/
theorem C10_getCell_unchecked_bounds :
    (∀ (b : ChessBoard) (row col : Int),
        (b.getCell row col).isSome = true ↔
          (0 ≤ row ∧ row < 8 ∧ 0 ≤ col ∧ col < 8)) ∧
    (∀ (b : ChessBoard) (row col new_row new_col : Int),
        (row < 0 ∨ col < 0 ∨ 8 ≤ row ∨ 8 ≤ col) →
        b.move row col new_row new_col = (false, b)) ∧
    (∀ (p : ChessPiece) (g : Grid) (new_row new_col : Int),
        (new_row < 0 ∨ 8 ≤ new_row ∨ new_col < 0 ∨ 8 ≤ new_col) →
        p.canMove new_row new_col g = false) := by
  refine ⟨?_, ?_, fun p g nr nc h => canMove_oob_false p g nr nc h⟩
  · intro b row col
    unfold ChessBoard.getCell
    by_cases h : 0 ≤ row ∧ row < 8 ∧ 0 ≤ col ∧ col < 8
    · simp [h]
    · simp [h]
  · intro b row col nr nc h
    unfold ChessBoard.move
    rw [if_pos (show row < 0 ∨ col < 0 ∨ BOARD_LENGTH ≤ row ∨ BOARD_LENGTH ≤ col by
      unfold BOARD_LENGTH; omega)]

theorem C10_witness :
    (ChessBoard.mkStandard "BLACK" "WHITE").move (-1) 0 0 0 =
        (false, ChessBoard.mkStandard "BLACK" "WHITE") ∧
      (Pawn "BLACK" 1 0 true).canMove 9 0 emptyGrid = false :=
  ⟨C10_getCell_unchecked_bounds.2.1 _ (-1) 0 0 0 (by omega),
   C10_getCell_unchecked_bounds.2.2 _ emptyGrid 9 0 (by omega)⟩

end Chess
